import Mathlib

/-!
Verification of the Local Model Lifecycle Manager of Open-AutoGLM.

The definitions below are a shallow embedding of the Python sources
`phone_agent/local_model/environment.py`, `phone_agent/local_model/downloader.py`
and `phone_agent/local_model/manager.py`.  External effects (file system,
subprocesses, HTTP probes) are abstracted into explicit inputs; control flow,
thresholds, messages and state updates follow the source line by line.
-/

namespace AutoGLM

/-! ### Environment detection (`environment.py`) -/

/-- One detected GPU, mirroring the `GPUInfo` dataclass. -/
structure GPUInfo where
  name : String
  memory_total : Int
  memory_free : Int := 0
  compute_capability : String := ""
  driver_version : String := ""
deriving DecidableEq

/-- The four components of the tuple returned by
`EnvironmentDetector._get_recommendation`. -/
structure Recommendation where
  model : String
  quantization : String
  can_run : Bool
  reason : String
deriving DecidableEq

/-- Python `max(gpu.memory_total for gpu in gpus)` (left fold of `max`);
the source only evaluates it on a non-empty list. -/
def maxVram : List GPUInfo → Int
  | [] => 0
  | g :: gs => gs.foldl (fun acc x => max acc x.memory_total) g.memory_total

/-- `EnvironmentDetector._get_recommendation` (environment.py lines 220-235).
`ram_total` is accepted and, as in the source, unused. -/
def get_recommendation (cuda_available : Bool) (gpus : List GPUInfo)
    (_ram_total : Int) : Recommendation :=
  if !cuda_available || gpus.isEmpty then
    ⟨"API_MODE", "none", false, "未检测到NVIDIA GPU，建议使用API模式"⟩
  else
    let mv := maxVram gpus
    if mv ≥ 16000 then
      ⟨"AutoGLM-Phone-9B", "fp16", true, toString mv ++ "MB显存，可运行FP16模型"⟩
    else if mv ≥ 10000 then
      ⟨"AutoGLM-Phone-9B", "int8", true, toString mv ++ "MB显存，推荐INT8量化"⟩
    else if mv ≥ 6000 then
      ⟨"AutoGLM-Phone-9B-GGUF-Q4", "q4_k_m", true, toString mv ++ "MB显存，推荐Q4量化"⟩
    else
      ⟨"API_MODE", "none", false, "显存不足(" ++ toString mv ++ "MB)，建议使用API模式"⟩

/-- The call site in `EnvironmentDetector.detect`: `_detect_gpu_environment`
returns `cuda_available = bool(gpus)`, so detection feeds
`get_recommendation` with `cuda_available` exactly when the GPU list is
non-empty. -/
def detectRecommendation (gpus : List GPUInfo) (ram_total : Int) : Recommendation :=
  get_recommendation (!gpus.isEmpty) gpus ram_total

/-- Rank of a quantization tier, used to state monotonicity of the
recommendation in the available memory. -/
def quantRank (q : String) : Nat :=
  if q = "fp16" then 3
  else if q = "int8" then 2
  else if q = "q4_k_m" then 1
  else 0

/-- Recommendation produced for a single detected GPU with `m` MB of memory. -/
def recommendationFor (m : Int) : Recommendation :=
  detectRecommendation [{ name := "GPU", memory_total := m }] 8000

lemma maxVram_single (m : Int) :
    maxVram [{ name := "GPU", memory_total := m }] = m := rfl

lemma detectRecommendation_cons (g : GPUInfo) (gs : List GPUInfo) (ram : Int) :
    detectRecommendation (g :: gs) ram =
      (if maxVram (g :: gs) ≥ 16000 then
        ⟨"AutoGLM-Phone-9B", "fp16", true,
          toString (maxVram (g :: gs)) ++ "MB显存，可运行FP16模型"⟩
      else if maxVram (g :: gs) ≥ 10000 then
        ⟨"AutoGLM-Phone-9B", "int8", true,
          toString (maxVram (g :: gs)) ++ "MB显存，推荐INT8量化"⟩
      else if maxVram (g :: gs) ≥ 6000 then
        ⟨"AutoGLM-Phone-9B-GGUF-Q4", "q4_k_m", true,
          toString (maxVram (g :: gs)) ++ "MB显存，推荐Q4量化"⟩
      else
        ⟨"API_MODE", "none", false,
          "显存不足(" ++ toString (maxVram (g :: gs)) ++ "MB)，建议使用API模式"⟩) := by
  simp [detectRecommendation, get_recommendation]

lemma detectRecommendation_quant (g : GPUInfo) (gs : List GPUInfo) (ram : Int) :
    (detectRecommendation (g :: gs) ram).quantization =
      (if maxVram (g :: gs) ≥ 16000 then "fp16"
       else if maxVram (g :: gs) ≥ 10000 then "int8"
       else if maxVram (g :: gs) ≥ 6000 then "q4_k_m"
       else "none") := by
  rw [detectRecommendation_cons]; split_ifs <;> rfl

lemma detectRecommendation_model (g : GPUInfo) (gs : List GPUInfo) (ram : Int) :
    (detectRecommendation (g :: gs) ram).model =
      (if maxVram (g :: gs) ≥ 16000 then "AutoGLM-Phone-9B"
       else if maxVram (g :: gs) ≥ 10000 then "AutoGLM-Phone-9B"
       else if maxVram (g :: gs) ≥ 6000 then "AutoGLM-Phone-9B-GGUF-Q4"
       else "API_MODE") := by
  rw [detectRecommendation_cons]; split_ifs <;> rfl

lemma detectRecommendation_can_run (g : GPUInfo) (gs : List GPUInfo) (ram : Int) :
    (detectRecommendation (g :: gs) ram).can_run =
      (if maxVram (g :: gs) ≥ 16000 then true
       else if maxVram (g :: gs) ≥ 10000 then true
       else if maxVram (g :: gs) ≥ 6000 then true
       else false) := by
  rw [detectRecommendation_cons]; split_ifs <;> rfl

/-- Claim C1: for every detected accelerator list, the recommendation is
determined by the maximum accelerator memory M (MB): no accelerator gives the
remote-API fallback with feasibility false; otherwise M ≥ 16000 gives the
fp16 model (feasible), 10000 ≤ M < 16000 gives 8-bit (feasible),
6000 ≤ M < 10000 gives 4-bit (feasible), and M < 6000 gives the remote-API
fallback (infeasible); each boundary maps to the higher tier. -/
theorem C1_recommendation_tiers (gpus : List GPUInfo) (ram : Int) :
    (gpus = [] →
      detectRecommendation gpus ram =
        ⟨"API_MODE", "none", false, "未检测到NVIDIA GPU，建议使用API模式"⟩) ∧
    (gpus ≠ [] →
      (16000 ≤ maxVram gpus →
        (detectRecommendation gpus ram).model = "AutoGLM-Phone-9B" ∧
        (detectRecommendation gpus ram).quantization = "fp16" ∧
        (detectRecommendation gpus ram).can_run = true) ∧
      (10000 ≤ maxVram gpus → maxVram gpus < 16000 →
        (detectRecommendation gpus ram).model = "AutoGLM-Phone-9B" ∧
        (detectRecommendation gpus ram).quantization = "int8" ∧
        (detectRecommendation gpus ram).can_run = true) ∧
      (6000 ≤ maxVram gpus → maxVram gpus < 10000 →
        (detectRecommendation gpus ram).quantization = "q4_k_m" ∧
        (detectRecommendation gpus ram).can_run = true) ∧
      (maxVram gpus < 6000 →
        (detectRecommendation gpus ram).model = "API_MODE" ∧
        (detectRecommendation gpus ram).quantization = "none" ∧
        (detectRecommendation gpus ram).can_run = false)) := by
  cases gpus with
  | nil => exact ⟨fun _ => rfl, fun h => absurd rfl h⟩
  | cons g gs =>
    refine ⟨fun h => List.noConfusion h, fun _ => ?_⟩
    rw [detectRecommendation_quant, detectRecommendation_model,
      detectRecommendation_can_run]
    refine ⟨fun h1 => ⟨?_, ?_, ?_⟩, fun h1 h2 => ⟨?_, ?_, ?_⟩,
      fun h1 h2 => ⟨?_, ?_⟩, fun h1 => ⟨?_, ?_, ?_⟩⟩ <;>
      split_ifs <;> first | rfl | omega

/-- Witness for C1 at a single 16000 MB GPU (boundary value, higher tier). -/
theorem C1_recommendation_tiers_witness :
    (detectRecommendation [{ name := "GPU", memory_total := 16000 }] 8000).quantization
      = "fp16" :=
  (((C1_recommendation_tiers [{ name := "GPU", memory_total := 16000 }] 8000).2
      (by simp)).1 (by decide)).2.1

/-- Counterexample to Claim C2 as stated: the claimed range
`6000 ≤ M < 16000 → 4-bit` fails at M = 12000, where the code recommends the
8-bit tier. -/
theorem C2_counterexample :
    ((6000 : Int) ≤ 12000 ∧ (12000 : Int) < 16000) ∧
    (recommendationFor 12000).quantization = "int8" ∧
    (recommendationFor 12000).quantization ≠ "q4_k_m" := by
  refine ⟨by decide, rfl, by decide⟩

lemma recommendationFor_quant (m : Int) :
    (recommendationFor m).quantization =
      (if m ≥ 16000 then "fp16"
       else if m ≥ 10000 then "int8"
       else if m ≥ 6000 then "q4_k_m"
       else "none") := by
  unfold recommendationFor
  rw [detectRecommendation_quant]
  simp only [maxVram_single]

/-- Claim C2 (amended): the 4-bit tier is recommended exactly for
6000 ≤ M < 10000; together with M ≥ 16000 → fp16 and
10000 ≤ M < 16000 → 8-bit, the tier assignment is monotone in M and covers
every M ≥ 0 with no gap. -/
theorem C2_tier_partition (m m' : Int) :
    (16000 ≤ m → (recommendationFor m).quantization = "fp16") ∧
    (10000 ≤ m → m < 16000 → (recommendationFor m).quantization = "int8") ∧
    (6000 ≤ m → m < 10000 → (recommendationFor m).quantization = "q4_k_m") ∧
    (0 ≤ m → m < 6000 → (recommendationFor m).quantization = "none") ∧
    (m ≤ m' →
      quantRank (recommendationFor m).quantization ≤
        quantRank (recommendationFor m').quantization) := by
  rw [recommendationFor_quant, recommendationFor_quant]
  refine ⟨fun h1 => ?_, fun h1 h2 => ?_, fun h1 h2 => ?_, fun h1 h2 => ?_,
    fun hle => ?_⟩ <;>
    split_ifs <;> first | rfl | decide | omega

/-- Witness for C2 (amended) at M = 7000 and M' = 11000. -/
theorem C2_tier_partition_witness :
    (recommendationFor 7000).quantization = "q4_k_m" ∧
    quantRank (recommendationFor 7000).quantization ≤
      quantRank (recommendationFor 11000).quantization :=
  ⟨(C2_tier_partition 7000 11000).2.2.1 (by decide) (by decide),
   (C2_tier_partition 7000 11000).2.2.2.2 (by decide)⟩

/-! ### Model download (`downloader.py`) -/

/-- The required metadata files of `ModelDownloader.is_model_downloaded`. -/
def required_files : List String := ["config.json", "tokenizer.json"]

/-- The weight globs `['*.safetensors', '*.bin', '*.gguf']`; each pattern
`*.ext` holds of a directory entry exactly when its name ends in `.ext`. -/
def weight_patterns : List String := [".safetensors", ".bin", ".gguf"]

/-- Whether some directory entry matches one of the weight patterns (the
second loop of `is_model_downloaded`, which returns true on the first
non-empty glob).  The suffix test is on the character sequence of the
entry name. -/
def hasWeightFile (files : List String) : Bool :=
  weight_patterns.any (fun ext => files.any (fun f => ext.data.isSuffixOf f.data))

/-- `ModelDownloader.is_model_downloaded` (downloader.py lines 123-141).  The
model directory is abstracted as `none` when absent and `some files` (its
entry names) when present. -/
def is_model_downloaded : Option (List String) → Bool
  | none => false
  | some files =>
    required_files.all (fun f => files.contains f) && hasWeightFile files

/-- Claim C3: the completeness check is false whenever the directory is
absent or a required metadata file is missing, and true exactly when all
required metadata files are present and some entry has a recognized weight
extension. -/
theorem C3_completeness_check (d : Option (List String)) :
    (d = none → is_model_downloaded d = false) ∧
    (∀ files r, d = some files → r ∈ required_files → r ∉ files →
      is_model_downloaded d = false) ∧
    (∀ files, d = some files →
      (is_model_downloaded d = true ↔
        (∀ r ∈ required_files, r ∈ files) ∧ hasWeightFile files = true)) := by
  refine ⟨fun h => by rw [h]; rfl, fun files r hd hr hnot => ?_, fun files hd => ?_⟩
  · subst hd
    simp only [is_model_downloaded, Bool.and_eq_false_imp]
    cases hall : required_files.all (fun f => files.contains f) with
    | false => simp
    | true =>
      exfalso
      exact hnot (by simpa using (List.all_eq_true.mp hall r hr))
  · subst hd
    simp [is_model_downloaded, List.all_eq_true]

/-- Witness for C3: metadata plus one weight stub is reported complete. -/
theorem C3_completeness_check_witness :
    is_model_downloaded
      (some ["config.json", "tokenizer.json", "model.safetensors"]) = true :=
  ((C3_completeness_check
      (some ["config.json", "tokenizer.json", "model.safetensors"])).2.2
    ["config.json", "tokenizer.json", "model.safetensors"] rfl).mpr
    (by refine ⟨by decide, by decide⟩)

/-- Session statuses of `DownloadProgress.status`. -/
inductive Status where
  | waiting
  | downloading
  | completed
  | error
deriving DecidableEq

/-- Forward rank of a status along `waiting → downloading → {completed, error}`. -/
def statusRank : Status → Nat
  | .waiting => 0
  | .downloading => 1
  | .completed => 2
  | .error => 2

/-- Result of one of the two toolchain version probes (`git --version`,
`git lfs version`): exit status zero, a non-zero exit status, or an
exception (binary absent or probe timeout). -/
inductive ToolCheck where
  | ok
  | badExit
  | notFound
deriving DecidableEq

/-- Environment of one `_download_via_git_clone` run: the outcomes of the
two toolchain probes, whether the destination directory already exists,
whether deleting it succeeds, and how the clone subprocess behaves. -/
structure CloneEnv where
  gitCheck : ToolCheck
  lfsCheck : ToolCheck
  destExists : Bool
  rmtreeOk : Bool
  rmtreeErr : String
  cloneRaises : Bool
  cloneErr : String
  cloneExit : Int

/-- Observable outcome of `_download_via_git_clone`: the returned boolean,
the error message recorded on the progress object (empty when none was
set), whether the clone subprocess was started, and whether the existing
destination directory was deleted. -/
structure CloneOutcome where
  success : Bool
  errMsg : String
  cloneStarted : Bool
  dirDeleted : Bool
deriving DecidableEq

/-- Error messages of the downloader, verbatim from downloader.py. -/
def gitMsgBadExit : String := "Git 未安装，请先安装 Git"

def gitMsgNotFound : String := "Git 未安装，请先安装 Git: https://git-scm.com/downloads"

def lfsMsgBadExit : String := "Git LFS 未安装，请先安装: git lfs install"

def lfsMsgNotFound : String := "Git LFS 未安装，请运行: git lfs install"

/-- `ModelDownloader._download_via_git_clone` (downloader.py lines 197-297):
probe git, probe git-lfs, delete an existing destination, clone, and map
the clone exit status to success or error. -/
def download_via_git_clone (env : CloneEnv) : CloneOutcome :=
  match env.gitCheck with
  | .badExit => ⟨false, gitMsgBadExit, false, false⟩
  | .notFound => ⟨false, gitMsgNotFound, false, false⟩
  | .ok =>
    match env.lfsCheck with
    | .badExit => ⟨false, lfsMsgBadExit, false, false⟩
    | .notFound => ⟨false, lfsMsgNotFound, false, false⟩
    | .ok =>
      if env.destExists && !env.rmtreeOk then
        ⟨false, "无法删除旧目录: " ++ env.rmtreeErr, false, false⟩
      else
        let deleted := env.destExists
        if env.cloneRaises then
          ⟨false, "Git clone 异常: " ++ env.cloneErr, true, deleted⟩
        else if env.cloneExit = 0 then
          ⟨true, "", true, deleted⟩
        else
          ⟨false, "Git clone 失败，返回码: " ++ toString env.cloneExit, true, deleted⟩

/-- Result of one `ModelDownloader.download_model` call: the returned
boolean and the sequence of values assigned to `progress.status` during the
call, in order.  The `stopRequested` argument models `_stop_flag`; as in
the source, which assigns the flag but never reads it, it does not occur in
the body. -/
def download_model (_stopRequested : Bool) (modelKnown : Bool)
    (env : CloneEnv) : Bool × List Status :=
  if !modelKnown then (false, [.error])
  else if (download_via_git_clone env).success then
    (true, [.downloading, .completed])
  else (false, [.downloading, .error])

/-- All statuses observable on the session during one `download_model`
call: the initial `waiting` set by `DownloadProgress.__init__`, then the
statuses assigned by the call. -/
def downloadStatusTrace (modelKnown : Bool) (env : CloneEnv) : List Status :=
  .waiting :: (download_model false modelKnown env).2

/-- Counterexample to Claim C4 as stated: an unknown model id moves the
session status from `waiting` directly to `error`, so `downloading` is not
the only status reachable from `waiting`. -/
theorem C4_counterexample :
    downloadStatusTrace false ⟨.ok, .ok, false, true, "", false, "", 0⟩ =
      [Status.waiting, Status.error] ∧
    Status.error ≠ Status.downloading :=
  ⟨rfl, by decide⟩

/-- Claim C4 (amended): within one `download_model` call the status rank
never decreases along `waiting → downloading → {completed, error}`, from
`downloading` only `completed` or `error` follow, and `waiting` is never
observed again after any progress event; the one exception to the claimed
chain is that an unknown model id moves `waiting` directly to `error`. -/
theorem C4_status_monotone (modelKnown : Bool) (env : CloneEnv) :
    List.Chain' (fun a b => statusRank a ≤ statusRank b)
      (downloadStatusTrace modelKnown env) ∧
    Status.waiting ∉ (download_model false modelKnown env).2 ∧
    (∀ rest, (download_model false modelKnown env).2 = Status.downloading :: rest →
      rest = [Status.completed] ∨ rest = [Status.error]) := by
  have hcases : (download_model false modelKnown env).2 = [Status.error] ∨
      (download_model false modelKnown env).2 =
        [Status.downloading, Status.completed] ∨
      (download_model false modelKnown env).2 =
        [Status.downloading, Status.error] := by
    cases modelKnown with
    | false => exact Or.inl rfl
    | true =>
      cases h : (download_via_git_clone env).success with
      | true => exact Or.inr (Or.inl (by simp [download_model, h]))
      | false => exact Or.inr (Or.inr (by simp [download_model, h]))
  have htrace : downloadStatusTrace modelKnown env =
      Status.waiting :: (download_model false modelKnown env).2 := rfl
  rcases hcases with h | h | h <;>
    rw [htrace, h] <;>
    refine ⟨by simp [List.chain'_cons, statusRank], by decide,
      fun rest hrest => ?_⟩
  · simp at hrest
  · injection hrest with h1 h2
    exact Or.inl h2.symm
  · injection hrest with h1 h2
    exact Or.inr h2.symm

/-- Witness for C4 (amended): a successful run passes through
`downloading` and then `completed`. -/
theorem C4_status_monotone_witness :
    ([Status.completed] = [Status.completed] ∨
      [Status.completed] = [Status.error]) ∧
    Status.waiting ∉
      (download_model false true ⟨.ok, .ok, false, true, "", false, "", 0⟩).2 :=
  ⟨(C4_status_monotone true ⟨.ok, .ok, false, true, "", false, "", 0⟩).2.2
      [Status.completed] rfl,
   (C4_status_monotone true ⟨.ok, .ok, false, true, "", false, "", 0⟩).2.1⟩

lemma clone_ok_ok (dest rm : Bool) (rme : String) (cr : Bool) (ce : String)
    (cx : Int) :
    download_via_git_clone ⟨.ok, .ok, dest, rm, rme, cr, ce, cx⟩ =
      (if dest && !rm then ⟨false, "无法删除旧目录: " ++ rme, false, false⟩
       else if cr then ⟨false, "Git clone 异常: " ++ ce, true, dest⟩
       else if cx = 0 then ⟨true, "", true, dest⟩
       else ⟨false, "Git clone 失败，返回码: " ++ toString cx, true, dest⟩) := rfl

/-- Claim C5: a failing toolchain probe (version-control binary or its
large-file extension) yields a failed download with the corresponding
distinguishing message, no clone subprocess, and no deletion of the
existing destination directory; the delete-then-recreate step runs only
after both probes pass. -/
theorem C5_toolchain_preconditions (env : CloneEnv) :
    (env.gitCheck ≠ ToolCheck.ok →
      (download_via_git_clone env).success = false ∧
      ((download_via_git_clone env).errMsg = gitMsgBadExit ∨
        (download_via_git_clone env).errMsg = gitMsgNotFound) ∧
      (download_via_git_clone env).cloneStarted = false ∧
      (download_via_git_clone env).dirDeleted = false) ∧
    (env.gitCheck = ToolCheck.ok → env.lfsCheck ≠ ToolCheck.ok →
      (download_via_git_clone env).success = false ∧
      ((download_via_git_clone env).errMsg = lfsMsgBadExit ∨
        (download_via_git_clone env).errMsg = lfsMsgNotFound) ∧
      (download_via_git_clone env).cloneStarted = false ∧
      (download_via_git_clone env).dirDeleted = false) ∧
    ((download_via_git_clone env).dirDeleted = true →
      env.gitCheck = ToolCheck.ok ∧ env.lfsCheck = ToolCheck.ok ∧
        env.destExists = true) ∧
    (gitMsgBadExit ≠ lfsMsgBadExit ∧ gitMsgBadExit ≠ lfsMsgNotFound ∧
      gitMsgNotFound ≠ lfsMsgBadExit ∧ gitMsgNotFound ≠ lfsMsgNotFound) := by
  obtain ⟨git, lfs, dest, rm, rme, cr, ce, cx⟩ := env
  refine ⟨?_, ?_, ?_, by decide, by decide, by decide, by decide⟩
  · intro hgit
    cases git with
    | ok => exact absurd rfl hgit
    | badExit => exact ⟨rfl, Or.inl rfl, rfl, rfl⟩
    | notFound => exact ⟨rfl, Or.inr rfl, rfl, rfl⟩
  · intro hgit hlfs
    cases git with
    | badExit => exact ToolCheck.noConfusion hgit
    | notFound => exact ToolCheck.noConfusion hgit
    | ok =>
      cases lfs with
      | ok => exact absurd rfl hlfs
      | badExit => exact ⟨rfl, Or.inl rfl, rfl, rfl⟩
      | notFound => exact ⟨rfl, Or.inr rfl, rfl, rfl⟩
  · cases git with
    | badExit => intro hdel; cases hdel
    | notFound => intro hdel; cases hdel
    | ok =>
      cases lfs with
      | badExit => intro hdel; cases hdel
      | notFound => intro hdel; cases hdel
      | ok =>
        rw [clone_ok_ok]
        split_ifs with h1 h2 h3 <;> intro hdel <;>
          first
            | exact ⟨rfl, rfl, hdel⟩
            | cases hdel

/-- Witness for C5: with the version-control binary absent, the download
fails, no clone is started, and the existing destination is kept. -/
theorem C5_toolchain_preconditions_witness :
    (download_via_git_clone ⟨.notFound, .ok, true, true, "", false, "", 0⟩).success
        = false ∧
    (download_via_git_clone ⟨.notFound, .ok, true, true, "", false, "", 0⟩).cloneStarted
        = false ∧
    (download_via_git_clone ⟨.notFound, .ok, true, true, "", false, "", 0⟩).dirDeleted
        = false :=
  ⟨((C5_toolchain_preconditions ⟨.notFound, .ok, true, true, "", false, "", 0⟩).1
      (by decide)).1,
   ((C5_toolchain_preconditions ⟨.notFound, .ok, true, true, "", false, "", 0⟩).1
      (by decide)).2.2.1,
   ((C5_toolchain_preconditions ⟨.notFound, .ok, true, true, "", false, "", 0⟩).1
      (by decide)).2.2.2⟩

/-- Claim C9 concerns `ModelDownloader.stop_download`, which sets
`_stop_flag`; the theorem shows the run of `download_model` is identical
whether or not a stop was requested, because the source assigns the flag
but never reads it: no step of the transfer is skipped after a cancel
request. -/
theorem C9_stop_flag_ignored (modelKnown : Bool) (env : CloneEnv) :
    download_model true modelKnown env = download_model false modelKnown env := rfl

/-! ### vLLM server supervision (`downloader.py`, `VLLMServerManager`) -/

/-- Environment of one `VLLMServerManager.start` run: whether the model
path exists, whether the spawned process is still alive at the k-th
liveness poll (poll 0 is the check after the 2-second grace sleep), and
whether the HTTP probe of the models endpoint returns 200 at the t-th
attempt of the startup loop. -/
structure ServerEnv where
  path_exists : Bool
  proc_alive : Nat → Bool
  http_ok : Nat → Bool

/-- Observable outcome of `VLLMServerManager.start`: the returned boolean,
whether a child process was spawned, whether `stop()` was invoked before
returning, and whether the last liveness poll before returning saw the
process already exited. -/
structure StartOutcome where
  success : Bool
  spawned : Bool
  stop_called : Bool
  exit_observed : Bool
deriving DecidableEq

/-- The polling loop of `VLLMServerManager.start` (downloader.py lines
403-421): at attempt `t` probe the HTTP endpoint, sleep, then re-check
process liveness; when the fuel (remaining attempts) runs out, the timeout
branch at lines 423-425 calls `stop()` and returns failure. -/
def start_poll (env : ServerEnv) (t : Nat) : Nat → StartOutcome
  | 0 => ⟨false, true, true, false⟩
  | fuel + 1 =>
    if env.http_ok t then ⟨true, true, false, false⟩
    else if env.proc_alive (t + 1) then start_poll env (t + 1) fuel
    else ⟨false, true, false, true⟩

/-- `self._startup_timeout = 30` seconds. -/
def startup_timeout : Nat := 30

/-- `VLLMServerManager.start` (downloader.py lines 360-425): fail fast
without spawning when the model path is missing; otherwise spawn, detect an
immediate crash after the grace sleep, then run the bounded polling loop. -/
def vllm_start (env : ServerEnv) : StartOutcome :=
  if env.path_exists then
    if env.proc_alive 0 then start_poll env 0 startup_timeout
    else ⟨false, true, false, true⟩
  else ⟨false, false, false, false⟩

lemma start_poll_spawned (env : ServerEnv) :
    ∀ fuel t, (start_poll env t fuel).spawned = true := by
  intro fuel
  induction fuel with
  | zero => intro t; rfl
  | succ n ih =>
    intro t
    rw [start_poll]
    split_ifs with h1 h2
    · rfl
    · exact ih (t + 1)
    · rfl

lemma start_poll_no_http (env : ServerEnv) (h : ∀ t, env.http_ok t = false) :
    ∀ fuel t, (start_poll env t fuel).success = false := by
  intro fuel
  induction fuel with
  | zero => intro t; rfl
  | succ n ih =>
    intro t
    rw [start_poll, h t, if_neg Bool.false_ne_true]
    split_ifs with h2
    · exact ih (t + 1)
    · rfl

lemma start_poll_cleanup (env : ServerEnv) :
    ∀ fuel t, (start_poll env t fuel).success = false →
      (start_poll env t fuel).stop_called = true ∨
        (start_poll env t fuel).exit_observed = true := by
  intro fuel
  induction fuel with
  | zero => intro t _; exact Or.inl rfl
  | succ n ih =>
    intro t hfail
    rw [start_poll] at hfail ⊢
    by_cases h1 : env.http_ok t = true
    · rw [if_pos h1] at hfail
      cases hfail
    · rw [if_neg h1] at hfail ⊢
      by_cases h2 : env.proc_alive (t + 1) = true
      · rw [if_pos h2] at hfail ⊢
        exact ih (t + 1) hfail
      · rw [if_neg h2]
        exact Or.inr rfl

lemma start_poll_timeout (env : ServerEnv) (halive : ∀ t, env.proc_alive t = true)
    (hhttp : ∀ t, env.http_ok t = false) :
    ∀ fuel t, (start_poll env t fuel).stop_called = true := by
  intro fuel
  induction fuel with
  | zero => intro t; rfl
  | succ n ih =>
    intro t
    rw [start_poll, hhttp t, if_neg Bool.false_ne_true, halive (t + 1),
      if_pos rfl]
    exact ih (t + 1)

/-- Counterexample to Claim C6 as stated: when the spawned process dies
after the first failed HTTP attempt, `start` returns failure without ever
calling `stop()` — process death does not trigger `stop()`. -/
theorem C6_counterexample :
    (vllm_start ⟨true, fun n => n == 0, fun _ => false⟩).success = false ∧
    (vllm_start ⟨true, fun n => n == 0, fun _ => false⟩).exit_observed = true ∧
    (vllm_start ⟨true, fun n => n == 0, fun _ => false⟩).stop_called = false :=
  ⟨rfl, rfl, rfl⟩

/-- Claim C6 (amended): a missing model path fails fast with no spawn; if
no HTTP attempt ever succeeds the start returns failure; the startup
timeout (path exists, process stays alive, no HTTP success) triggers
`stop()`; and on every failure either nothing was spawned, or `stop()` was
called, or the process was already observed exited — so no live spawned
process remains after a failed start.  Process death itself returns failure
without calling `stop()`. -/
theorem C6_start_failure_cleanup (env : ServerEnv) :
    (env.path_exists = false →
      vllm_start env = ⟨false, false, false, false⟩) ∧
    ((∀ t, env.http_ok t = false) → (vllm_start env).success = false) ∧
    ((vllm_start env).success = false →
      (vllm_start env).spawned = false ∨ (vllm_start env).stop_called = true ∨
        (vllm_start env).exit_observed = true) ∧
    (env.path_exists = true → (∀ t, env.proc_alive t = true) →
      (∀ t, env.http_ok t = false) → (vllm_start env).stop_called = true) := by
  refine ⟨fun h => ?_, fun hhttp => ?_, fun hfail => ?_, fun hpath halive hhttp => ?_⟩
  · rw [vllm_start, h]; rfl
  · rw [vllm_start]
    split_ifs with h1 h2
    · exact start_poll_no_http env hhttp startup_timeout 0
    · rfl
    · rfl
  · rw [vllm_start] at hfail ⊢
    split_ifs with h1 h2
    · rw [if_pos h1, if_pos h2] at hfail
      exact Or.inr (start_poll_cleanup env startup_timeout 0 hfail)
    · exact Or.inr (Or.inr rfl)
    · exact Or.inl rfl
  · rw [vllm_start, hpath, if_pos rfl, halive 0, if_pos rfl]
    exact start_poll_timeout env halive hhttp startup_timeout 0

/-- Witness for C6 (amended): a process that never opens its health port
but stays alive leads to the timeout branch, which calls `stop()`. -/
theorem C6_start_failure_cleanup_witness :
    (vllm_start ⟨true, fun _ => true, fun _ => false⟩).stop_called = true ∧
    (vllm_start ⟨true, fun _ => true, fun _ => false⟩).success = false :=
  ⟨(C6_start_failure_cleanup ⟨true, fun _ => true, fun _ => false⟩).2.2.2
      rfl (fun _ => rfl) (fun _ => rfl),
   (C6_start_failure_cleanup ⟨true, fun _ => true, fun _ => false⟩).2.1
      (fun _ => rfl)⟩

/-- State observed by one `VLLMServerManager.is_running` call: whether
`self.process` is set, whether `poll()` reports the process exited, whether
the HTTP probe of the models endpoint returns 200, and the value of the
internal `_is_running` flag. -/
structure ServerProbe where
  has_process : Bool
  proc_exited : Bool
  http_ok : Bool
  is_running_flag : Bool

/-- `VLLMServerManager.is_running` (downloader.py lines 456-473): `false`
with no process, `false` when `poll()` shows the process exited, otherwise
the result of the HTTP probe.  The cached `_is_running` flag is assigned on
the exit path but never read. -/
def is_running (s : ServerProbe) : Bool :=
  if !s.has_process then false
  else if s.proc_exited then false
  else s.http_ok

/-- Claim C7: `is_running` is not a cached flag — it is false with no
process or an exited process (with no `stop()` needed), is independent of
the internal `_is_running` flag, and for a live process it is true exactly
when the HTTP health probe succeeds. -/
theorem C7_is_running_fresh (s : ServerProbe) :
    (s.has_process = false → is_running s = false) ∧
    (s.proc_exited = true → is_running s = false) ∧
    (∀ b, is_running { s with is_running_flag := b } = is_running s) ∧
    (s.has_process = true → s.proc_exited = false →
      (is_running s = true ↔ s.http_ok = true)) := by
  obtain ⟨hp, pe, ho, fl⟩ := s
  refine ⟨fun h => ?_, fun h => ?_, fun b => rfl, fun h1 h2 => ?_⟩
  · subst h; rfl
  · subst h; cases hp <;> rfl
  · subst h1; subst h2
    simp [is_running]

/-- Witness for C7: an alive process whose HTTP probe succeeds reports
running. -/
theorem C7_is_running_fresh_witness :
    is_running ⟨true, false, true, false⟩ = true :=
  ((C7_is_running_fresh ⟨true, false, true, false⟩).2.2.2 rfl rfl).mpr rfl

/-! ### Lifecycle manager (`manager.py`) -/

/-- Content of the persisted `config.json` (`last_model`, `model_path`,
`server_port`); `none` models an absent key. -/
structure PersistedConfig where
  last_model : Option String
  model_path : Option String
  server_port : Option Int
deriving DecidableEq

/-- `ModelDownloader.get_model_path`: the model directory joined with the
model name, `/` replaced by `_`. -/
def get_model_path (model_dir name : String) : String :=
  model_dir ++ "/" ++ (name.replace "/" "_")

/-- Outcome of a manager operation: the returned boolean, the persisted
configuration after the call, and whether `_save_config` rewrote the
configuration file during the call. -/
structure MgrResult where
  ok : Bool
  cfg : PersistedConfig
  config_written : Bool

/-- `LocalModelManager.download_model` (manager.py lines 198-221).
`model_name` falls back to the profiled recommendation; `API_MODE` is
refused; the downloader outcome is the abstract `download_ok`; on success
`last_model` and `model_path` are stored and the config saved. -/
def mgr_download_model (model_dir : String) (model_name : Option String)
    (recommended : String) (download_ok : Bool) (cfg : PersistedConfig) :
    MgrResult :=
  let name := model_name.getD recommended
  if name = "API_MODE" then ⟨false, cfg, false⟩
  else if download_ok then
    let cfg2 : PersistedConfig :=
      { cfg with
          last_model := some name
          model_path := some (get_model_path model_dir name) }
    ⟨true, cfg2, true⟩
  else ⟨false, cfg, false⟩

/-- Python `model_name = model_name or self._config.get('last_model')` in
`LocalModelManager.start_server`. -/
def resolve_model_name (arg : Option String) (cfg : PersistedConfig) :
    Option String :=
  match arg with
  | some n => some n
  | none => cfg.last_model

/-- `LocalModelManager.start_server` (manager.py lines 223-266): resolve
the model name, refuse a missing or undownloaded model, start the server
(abstract `start_ok`), and on success store `server_port`/`last_model` and
save the config. -/
def mgr_start_server (arg : Option String) (cfg : PersistedConfig)
    (downloaded : Bool) (start_ok : Bool) (port : Int) : MgrResult :=
  match resolve_model_name arg cfg with
  | none => ⟨false, cfg, false⟩
  | some name =>
    if !downloaded then ⟨false, cfg, false⟩
    else if start_ok then
      ⟨true, { cfg with server_port := some port, last_model := some name },
        true⟩
    else ⟨false, cfg, false⟩

/-- Claim C8: the persisted configuration is rewritten exactly when the
state-changing operation succeeds — `download_model` stores
`last_model`/`model_path` on success, `start_server` stores
`server_port`/`last_model` on success, and every failure path leaves the
persisted configuration unchanged and unwritten. -/
theorem C8_config_persistence :
    (∀ (model_dir : String) (arg : Option String) (recommended : String)
        (download_ok : Bool) (cfg : PersistedConfig),
      ((mgr_download_model model_dir arg recommended download_ok cfg).config_written
          = (mgr_download_model model_dir arg recommended download_ok cfg).ok) ∧
      ((mgr_download_model model_dir arg recommended download_ok cfg).ok = false →
        (mgr_download_model model_dir arg recommended download_ok cfg).cfg = cfg) ∧
      ((mgr_download_model model_dir arg recommended download_ok cfg).ok = true →
        (mgr_download_model model_dir arg recommended download_ok cfg).cfg.last_model
            = some (arg.getD recommended) ∧
        (mgr_download_model model_dir arg recommended download_ok cfg).cfg.model_path
            = some (get_model_path model_dir (arg.getD recommended)) ∧
        (mgr_download_model model_dir arg recommended download_ok cfg).cfg.server_port
            = cfg.server_port)) ∧
    (∀ (arg : Option String) (cfg : PersistedConfig)
        (downloaded start_ok : Bool) (port : Int),
      ((mgr_start_server arg cfg downloaded start_ok port).config_written
          = (mgr_start_server arg cfg downloaded start_ok port).ok) ∧
      ((mgr_start_server arg cfg downloaded start_ok port).ok = false →
        (mgr_start_server arg cfg downloaded start_ok port).cfg = cfg) ∧
      ((mgr_start_server arg cfg downloaded start_ok port).ok = true →
        (mgr_start_server arg cfg downloaded start_ok port).cfg.server_port
            = some port ∧
        (mgr_start_server arg cfg downloaded start_ok port).cfg.last_model
            = resolve_model_name arg cfg ∧
        (mgr_start_server arg cfg downloaded start_ok port).cfg.model_path
            = cfg.model_path)) := by
  constructor
  · intro model_dir arg recommended download_ok cfg
    simp only [mgr_download_model]
    split_ifs with h1 h2 <;> simp
  · intro arg cfg downloaded start_ok port
    cases hres : resolve_model_name arg cfg with
    | none => simp [mgr_start_server, hres]
    | some name =>
      cases downloaded <;> cases start_ok <;> simp [mgr_start_server, hres]

/-- Witness for C8: a successful download persists the model name, and a
successful server start persists the port. -/
theorem C8_config_persistence_witness :
    (mgr_download_model "models" none "AutoGLM-Phone-9B" true
        ⟨none, none, none⟩).cfg.last_model = some "AutoGLM-Phone-9B" ∧
    (mgr_start_server (some "AutoGLM-Phone-9B") ⟨none, none, none⟩ true true
        8000).cfg.server_port = some (8000 : Int) :=
  ⟨((C8_config_persistence.1 "models" none "AutoGLM-Phone-9B" true
      ⟨none, none, none⟩).2.2 rfl).1,
   ((C8_config_persistence.2 (some "AutoGLM-Phone-9B") ⟨none, none, none⟩ true
      true 8000).2.2 rfl).1⟩

/-! ### Download progress percentages (`DownloadProgress`) -/

/-- The numeric fields of `DownloadProgress` read by the two percentage
properties (byte counts as integers). -/
structure ProgressState where
  total_size : Int
  downloaded_size : Int
  current_file_size : Int
  current_file_downloaded : Int

/-- `DownloadProgress.percent` (downloader.py lines 65-70): 0 for a
non-positive current file size, otherwise the per-file ratio scaled to 100
and clamped above at 100. -/
def percent (p : ProgressState) : ℚ :=
  if p.current_file_size ≤ 0 then 0
  else min 100 ((p.current_file_downloaded : ℚ) / (p.current_file_size : ℚ) * 100)

/-- `DownloadProgress.total_percent` (downloader.py lines 72-78): 0 for a
non-positive total size, otherwise the aggregate ratio scaled to 100 and
clamped above at 100. -/
def total_percent (p : ProgressState) : ℚ :=
  if p.total_size ≤ 0 then 0
  else
    min 100
      (((p.downloaded_size + p.current_file_downloaded : Int) : ℚ) /
          (p.total_size : ℚ) * 100)

/-- Claim C10: with non-negative byte counters both percentages always lie
in [0, 100], and each is exactly 0 whenever its denominator is zero or
negative — in particular a session whose total size was never set reports a
total percentage of 0. -/
theorem C10_percent_bounds (p : ProgressState)
    (h1 : 0 ≤ p.current_file_downloaded) (h2 : 0 ≤ p.downloaded_size) :
    (0 ≤ percent p ∧ percent p ≤ 100) ∧
    (0 ≤ total_percent p ∧ total_percent p ≤ 100) ∧
    (p.current_file_size ≤ 0 → percent p = 0) ∧
    (p.total_size ≤ 0 → total_percent p = 0) := by
  have hq1 : (0 : ℚ) ≤ (p.current_file_downloaded : ℚ) := by exact_mod_cast h1
  have hq2 : (0 : ℚ) ≤ (p.downloaded_size : ℚ) := by exact_mod_cast h2
  refine ⟨?_, ?_, fun h => by rw [percent, if_pos h], fun h => by
    rw [total_percent, if_pos h]⟩
  · rw [percent]
    split_ifs with h
    · exact ⟨le_refl 0, by norm_num⟩
    · have hpos : (0 : ℚ) < (p.current_file_size : ℚ) := by
        exact_mod_cast lt_of_not_le h
      refine ⟨le_min (by norm_num) ?_, min_le_left _ _⟩
      exact mul_nonneg (div_nonneg hq1 hpos.le) (by norm_num)
  · rw [total_percent]
    split_ifs with h
    · exact ⟨le_refl 0, by norm_num⟩
    · have hpos : (0 : ℚ) < (p.total_size : ℚ) := by
        exact_mod_cast lt_of_not_le h
      have hsum : (0 : ℚ) ≤ ((p.downloaded_size + p.current_file_downloaded : Int) : ℚ) := by
        push_cast
        exact add_nonneg hq2 hq1
      refine ⟨le_min (by norm_num) ?_, min_le_left _ _⟩
      exact mul_nonneg (div_nonneg hsum hpos.le) (by norm_num)

/-- Witness for C10: a session with no sizes set reports both percentages
as 0. -/
theorem C10_percent_bounds_witness :
    percent ⟨0, 0, 0, 7⟩ = 0 ∧ total_percent ⟨0, 0, 0, 7⟩ = 0 :=
  ⟨(C10_percent_bounds ⟨0, 0, 0, 7⟩ (by decide) (by decide)).2.2.1 (by decide),
   (C10_percent_bounds ⟨0, 0, 0, 7⟩ (by decide) (by decide)).2.2.2 (by decide)⟩

end AutoGLM
